import Mathlib

/-!
Verification of the MediConnect symptom-triage application.

The storage layer is embedded from the Supabase SQL schema
(`symptom_logs` table, RLS policies, `handle_updated_at` trigger,
`get_user_recent_symptoms`, `user_symptom_stats`) and the migration
`add_resolution_status.sql`.  Client-side logic is embedded from the React
frontend (`handleSubmit`, the axios response interceptor, `getUrgencyColor`,
`getResolutionStatus`).  The FastAPI backend application is not part of the
repository sources (only its Dockerfile and requirements are), so the HTTP
handlers are modelled from the specification where needed and are marked as
such in their doc comments.

UUIDs are modelled as `Nat`, timestamps (`TIMESTAMP WITH TIME ZONE`) as a
`Nat` instant passed in explicitly for `NOW()`, and the `DECIMAL(3,2)`
confidence column as an `Option Int` holding hundredths (so `0.85` is `85`
and the representable range is `-999 ≤ v ≤ 999`).
-/

/-- A row of `public.symptom_logs` (schema file, lines 8-18, plus the columns
added by `add_resolution_status.sql`).  `related_symptom_ids` and
`follow_up_date` are never touched by any operation the claims mention and are
omitted; `esi_classification` is kept because the base table declares it. -/
structure SymptomLog where
  id : Nat
  user_id : Nat
  symptoms : String
  urgency_level : String
  explanation : String
  confidence : Option Int
  esi_classification : Option String
  resolution_status : String
  created_at : Nat
  updated_at : Nat
deriving Repr, DecidableEq

/-- The database state: the contents of `public.symptom_logs`. -/
abbrev DB := List SymptomLog

/-- The five urgency levels of the table CHECK constraint
`urgency_level IN ('Emergency', 'Urgent', 'Primary Care', 'Telehealth', 'Self-Care')`. -/
def urgencyLevels : List String :=
  ["Emergency", "Urgent", "Primary Care", "Telehealth", "Self-Care"]

/-- The five resolution statuses of the migration constraint
`chk_resolution_status`. -/
def resolutionStatuses : List String :=
  ["Ongoing", "Resolved", "Improved", "Worsened", "Unknown"]

/-- The CHECK constraint on `urgency_level`. -/
def urgencyCheck (u : String) : Bool := urgencyLevels.contains u

/-- The migration constraint `chk_resolution_status` on `resolution_status`. -/
def resolutionCheck (s : String) : Bool := resolutionStatuses.contains s

/-- Representability in the column type `DECIMAL(3,2)` (three digits, two of
them after the point), over hundredths: any value with `|v| ≤ 9.99` fits.
The schema attaches no CHECK constraint to `confidence`. -/
def confidenceColumnCheck (c : Option Int) : Bool :=
  match c with
  | none => true
  | some v => decide (-999 ≤ v) && decide (v ≤ 999)

/-- Errors raised by the storage layer itself. -/
inductive DbError where
  | rlsViolation
  | checkViolation
deriving Repr, DecidableEq

/-- The error taxonomy of spec section 7. -/
inductive ApiError where
  | ValidationError
  | AuthError
  | NotFoundError
  | UpstreamError
  | PersistenceError
deriving Repr, DecidableEq

instance {ε α : Type} [DecidableEq ε] [DecidableEq α] : DecidableEq (Except ε α) :=
  fun a b =>
    match a, b with
    | Except.ok x, Except.ok y => decidable_of_iff (x = y) (by simp)
    | Except.error x, Except.error y => decidable_of_iff (x = y) (by simp)
    | Except.ok _, Except.error _ => isFalse (by simp)
    | Except.error _, Except.ok _ => isFalse (by simp)

/-- An `INSERT` into `symptom_logs` executed under the identity `uid`:
the RLS policy `Users can insert their own symptom logs` demands
`auth.uid() = user_id`; the primary key, the `urgency_level` CHECK, the
`chk_resolution_status` CHECK and the `DECIMAL(3,2)` column type are enforced;
a new row is appended. -/
def insertLog (uid : Nat) (r : SymptomLog) (db : DB) : Except DbError DB :=
  if r.user_id == uid then
    if urgencyCheck r.urgency_level && resolutionCheck r.resolution_status
        && confidenceColumnCheck r.confidence && !(db.any (fun q => q.id == r.id)) then
      Except.ok (db ++ [r])
    else Except.error DbError.checkViolation
  else Except.error DbError.rlsViolation

/-- The trigger function `public.handle_updated_at`: before every UPDATE it
sets `NEW.updated_at = NOW()`. -/
def handle_updated_at (now : Nat) (r : SymptomLog) : SymptomLog :=
  { r with updated_at := now }

/-- The effect on one row of `UPDATE symptom_logs SET resolution_status = s`
combined with the `set_updated_at` BEFORE UPDATE trigger. -/
def applyResolution (s : String) (now : Nat) (r : SymptomLog) : SymptomLog :=
  handle_updated_at now { r with resolution_status := s }

/-- The row targeted by a resolution update: `id = logId` restricted by the
RLS policy `Users can update their own symptom logs`
(`USING (auth.uid() = user_id)`). -/
def isTarget (logId uid : Nat) (r : SymptomLog) : Bool :=
  r.id == logId && r.user_id == uid

/-- Modelled from the spec: the `PUT /api/history/resolution` handler belongs
to the FastAPI backend, which is not under the repository sources.  Per spec
sections 4.3 and 7, a validation error (unrecognised status value) is rejected
before any external call; a row that does not belong to the caller is invisible
under the RLS update policy, so the update matches nothing and the handler
rejects with a not-found error; otherwise the row is overwritten by
`applyResolution` (the SQL `SET` plus the `handle_updated_at` trigger) and
returned.  The pair returns the response and the post-state of the table. -/
def updateResolutionOp (uid logId : Nat) (s : String) (now : Nat) (db : DB) :
    Except ApiError SymptomLog × DB :=
  if resolutionCheck s = false then (Except.error ApiError.ValidationError, db)
  else
    match db.find? (isTarget logId uid) with
    | none => (Except.error ApiError.NotFoundError, db)
    | some r =>
      (Except.ok (applyResolution s now r),
       db.map (fun q => if isTarget logId uid q then applyResolution s now q else q))

/-- `ORDER BY created_at DESC`: newest first. -/
def createdDesc (a b : SymptomLog) : Prop := b.created_at ≤ a.created_at

instance : DecidableRel createdDesc :=
  fun a b => inferInstanceAs (Decidable (b.created_at ≤ a.created_at))

instance : IsTotal SymptomLog createdDesc := ⟨fun a b => Nat.le_total b.created_at a.created_at⟩

instance : IsTrans SymptomLog createdDesc := ⟨fun _ _ _ h1 h2 => Nat.le_trans h2 h1⟩

/-- The caller's rows ordered newest first:
`WHERE s.user_id = p_user_id ORDER BY s.created_at DESC`. -/
def ownedNewestFirst (uid : Nat) (db : DB) : List SymptomLog :=
  List.insertionSort createdDesc (db.filter (fun r => r.user_id == uid))

/-- The SQL function `public.get_user_recent_symptoms(p_user_id, p_limit)`:
rows of the caller, newest first, `LIMIT p_limit`, projected to
`(symptoms, created_at)`. -/
def get_user_recent_symptoms (p_user_id p_limit : Nat) (db : DB) :
    List (String × Nat) :=
  ((ownedNewestFirst p_user_id db).take p_limit).map (fun s => (s.symptoms, s.created_at))

/-- Modelled from the spec: the `GET /api/history/?limit=N` handler belongs to
the FastAPI backend, which is not under the repository sources.  Per spec
section 4.2 it returns the caller's assessments newest-first up to the limit —
the same selection the in-repository SQL function `get_user_recent_symptoms`
performs, without the column projection.  Pure read: the second component is
the unchanged table. -/
def historyQueryOp (uid limit : Nat) (db : DB) : List SymptomLog × DB :=
  ((ownedNewestFirst uid db).take limit, db)

/-- Aggregate record of the view `public.user_symptom_stats` for one user. -/
structure UserSymptomStats where
  total_assessments : Nat
  emergency_count : Nat
  urgent_count : Nat
  primary_care_count : Nat
  telehealth_count : Nat
  self_care_count : Nat
  first_assessment : Option Nat
  last_assessment : Option Nat
deriving Repr, DecidableEq

/-- `COUNT(CASE WHEN urgency_level = lvl THEN 1 END)`. -/
def countUrgency (lvl : String) (rows : List SymptomLog) : Nat :=
  (rows.filter (fun r => r.urgency_level == lvl)).length

/-- The view `public.user_symptom_stats` read as the user `uid`: the RLS
policy `Users can view their own stats` (`USING (auth.uid() = user_id)`)
restricts the grouped rows to the caller's own. -/
def user_symptom_stats (uid : Nat) (db : DB) : UserSymptomStats :=
  let rows := db.filter (fun r => r.user_id == uid)
  { total_assessments := rows.length
    emergency_count := countUrgency "Emergency" rows
    urgent_count := countUrgency "Urgent" rows
    primary_care_count := countUrgency "Primary Care" rows
    telehealth_count := countUrgency "Telehealth" rows
    self_care_count := countUrgency "Self-Care" rows
    first_assessment := (rows.map (fun r => r.created_at)).min?
    last_assessment := (rows.map (fun r => r.created_at)).max? }

/-- Modelled from the spec: the `GET /api/history/stats` handler belongs to
the FastAPI backend, which is not under the repository sources.  It reads the
`user_symptom_stats` view for the caller; pure read, table unchanged. -/
def statsOp (uid : Nat) (db : DB) : UserSymptomStats × DB :=
  (user_symptom_stats uid db, db)

/-- JavaScript `String.prototype.trim()` as used by the frontend (`symptoms.trim()`):
drop whitespace from both ends of the character sequence. -/
def jsTrim (s : String) : String :=
  String.mk (((s.data.dropWhile Char.isWhitespace).reverse.dropWhile Char.isWhitespace).reverse)

/-- Output of the classification collaborator (the external LLM), as consumed
by the backend. -/
structure ClassifierOutput where
  urgency_level : String
  explanation : String
  confidence : Option Int
deriving Repr, DecidableEq

/-- The record the assess handler persists: caller-owned, classifier output
attached, `resolution_status` defaulting to `Unknown` (the migration default),
`created_at` and `updated_at` both set at creation time. -/
def mkAssessLog (uid freshId now : Nat) (symptoms : String) (out : ClassifierOutput) :
    SymptomLog :=
  { id := freshId
    user_id := uid
    symptoms := symptoms
    urgency_level := out.urgency_level
    explanation := out.explanation
    confidence := out.confidence
    esi_classification := none
    resolution_status := "Unknown"
    created_at := now
    updated_at := now }

/-- Modelled from the spec: the `POST /api/triage/assess` handler belongs to
the FastAPI backend, which is not under the repository sources.  Per spec
sections 4.1 and 7: empty/whitespace-only input is rejected with a validation
error before any external call; an unreachable or malformed classification
collaborator surfaces an upstream error with no partial record persisted;
otherwise the complete record (with `resolution_status` defaulting to
`Unknown`, per the migration default) is persisted through the storage layer
(`insertLog`, embedded from the SQL schema) and returned.  A storage failure
after successful classification surfaces a persistence error. -/
def assessHandler (uid : Nat) (symptoms : String)
    (classify : String → Option ClassifierOutput) (freshId now : Nat) (db : DB) :
    Except ApiError SymptomLog × DB :=
  if (jsTrim symptoms).isEmpty then (Except.error ApiError.ValidationError, db)
  else
    match classify symptoms with
    | none => (Except.error ApiError.UpstreamError, db)
    | some out =>
      match insertLog uid (mkAssessLog uid freshId now symptoms out) db with
      | Except.error _ => (Except.error ApiError.PersistenceError, db)
      | Except.ok db2 => (Except.ok (mkAssessLog uid freshId now symptoms out), db2)

/-- Outcome of the frontend submit handler. -/
inductive SubmitOutcome where
  | rejectedEmpty
  | submitted (resp : Except ApiError SymptomLog)
deriving Repr

/-- The frontend `handleSubmit` of `TriagePage`: `if (!symptoms.trim())` it
shows a validation toast and returns without calling the API (so the stored
state cannot change); otherwise it calls
`triageAPI.assessSymptoms(symptoms.trim())`. -/
def handleSubmit (symptoms : String) (uid : Nat)
    (classify : String → Option ClassifierOutput) (freshId now : Nat) (db : DB) :
    SubmitOutcome × DB :=
  if (jsTrim symptoms).isEmpty then (SubmitOutcome.rejectedEmpty, db)
  else
    let r := assessHandler uid (jsTrim symptoms) classify freshId now db
    (SubmitOutcome.submitted r.1, r.2)

/-- The client session persisted by the frontend: the two `localStorage` keys
`mediconnect_token` and `mediconnect_user`, and `window.location.href`. -/
structure ClientSession where
  token : Option String
  user : Option String
  location : String
deriving Repr, DecidableEq

/-- The axios response interceptor of `services/api.js`: when
`error.response?.status === 401` it removes both stored keys and sets
`window.location.href = '/login'`; every other error leaves the session
untouched. -/
def responseInterceptor (status : Option Nat) (s : ClientSession) : ClientSession :=
  if status == some 401 then
    { token := none, user := none, location := "/login" }
  else s

/-- The frontend `getUrgencyColor` lookup (`HistoryPage`, `Dashboard` and
`TriagePage` carry the identical table): the five known levels map to their
badge classes, anything else falls back to
`'bg-gray-50 text-gray-700 border-gray-200'`. -/
def getUrgencyColor (urgencyLevel : String) : String :=
  if urgencyLevel = "Emergency" then "urgency-emergency"
  else if urgencyLevel = "Urgent" then "urgency-urgent"
  else if urgencyLevel = "Primary Care" then "urgency-primary-care"
  else if urgencyLevel = "Telehealth" then "urgency-telehealth"
  else if urgencyLevel = "Self-Care" then "urgency-self-care"
  else "bg-gray-50 text-gray-700 border-gray-200"

/-- One entry of the `statusConfig` table of `getResolutionStatus`; the icon
component is identified by its name. -/
structure ResolutionConfig where
  color : String
  icon : String
  label : String
deriving Repr, DecidableEq

/-- `statusConfig['Unknown']`. -/
def unknownConfig : ResolutionConfig :=
  { color := "text-gray-600 bg-gray-50 border-gray-200", icon := "XCircle", label := "Unknown" }

/-- The frontend `getResolutionStatus` of `HistoryPage`:
`statusConfig[status] || statusConfig['Unknown']`. -/
def getResolutionStatus (status : String) : ResolutionConfig :=
  if status = "Resolved" then
    { color := "text-green-600 bg-green-50 border-green-200", icon := "CheckCircle", label := "Resolved" }
  else if status = "Improved" then
    { color := "text-blue-600 bg-blue-50 border-blue-200", icon := "TrendingUp", label := "Improved" }
  else if status = "Ongoing" then
    { color := "text-yellow-600 bg-yellow-50 border-yellow-200", icon := "Clock", label := "Ongoing" }
  else if status = "Worsened" then
    { color := "text-red-600 bg-red-50 border-red-200", icon := "AlertCircle", label := "Worsened" }
  else if status = "Unknown" then unknownConfig
  else unknownConfig

/-- The `HistoryPage` call site
`getResolutionStatus(assessment.resolution_status || 'Unknown')`: a missing
status is replaced by `'Unknown'` before the lookup. -/
def resolutionConfigOf (status : Option String) : ResolutionConfig :=
  getResolutionStatus (status.getD "Unknown")

/-- The invariant of claim C2 on the stored state: every row's
`urgency_level` and `resolution_status` are members of their fixed sets. -/
def dbInv (db : DB) : Prop :=
  ∀ r ∈ db, urgencyCheck r.urgency_level = true ∧ resolutionCheck r.resolution_status = true

/-- Erase the one field a repeated resolution update may change. -/
def eraseUpdatedAt (r : SymptomLog) : SymptomLog :=
  { r with updated_at := 0 }

/-- Sample row used to instantiate theorems with hypotheses. -/
def sampleLog1 : SymptomLog :=
  { id := 1
    user_id := 7
    symptoms := "mild headache"
    urgency_level := "Self-Care"
    explanation := "rest and hydrate"
    confidence := some 85
    esi_classification := none
    resolution_status := "Unknown"
    created_at := 10
    updated_at := 10 }

/-- Sample row of a second user. -/
def sampleLog2 : SymptomLog :=
  { id := 2
    user_id := 8
    symptoms := "chest pain"
    urgency_level := "Emergency"
    explanation := "call emergency services"
    confidence := some 90
    esi_classification := none
    resolution_status := "Ongoing"
    created_at := 20
    updated_at := 20 }

/-- Sample table holding one row of each user. -/
def sampleDB : DB := [sampleLog1, sampleLog2]

/-- A third row of user 7, used to instantiate insertion hypotheses. -/
def sampleLog3 : SymptomLog :=
  { id := 3
    user_id := 7
    symptoms := "sore throat"
    urgency_level := "Telehealth"
    explanation := "telehealth visit"
    confidence := some 50
    esi_classification := none
    resolution_status := "Unknown"
    created_at := 30
    updated_at := 30 }

instance (db : DB) : Decidable (dbInv db) :=
  List.decidableBAll _ db

lemma insertLog_ok {uid : Nat} {r : SymptomLog} {db db2 : DB}
    (h : insertLog uid r db = Except.ok db2) :
    r.user_id = uid ∧ urgencyCheck r.urgency_level = true
      ∧ resolutionCheck r.resolution_status = true
      ∧ confidenceColumnCheck r.confidence = true
      ∧ db2 = db ++ [r] := by
  unfold insertLog at h
  split at h
  · split at h
    · rename_i h1 h2
      simp only [Bool.and_eq_true] at h2
      injection h with h3
      exact ⟨eq_of_beq h1, h2.1.1.1, h2.1.1.2, h2.1.2, h3.symm⟩
    · exact absurd h (by simp)
  · exact absurd h (by simp)

lemma isTarget_applyResolution (logId uid : Nat) (s : String) (now : Nat) (q : SymptomLog) :
    isTarget logId uid (applyResolution s now q) = isTarget logId uid q := rfl

lemma applyResolution_twice (s : String) (t1 t2 : Nat) (q : SymptomLog) :
    applyResolution s t2 (applyResolution s t1 q) = applyResolution s t2 q := rfl

lemma find?_map_of_pred {α : Type} {p : α → Bool} {f : α → α}
    (h : ∀ a, p (f a) = p a) (l : List α) :
    List.find? p (l.map f) = (List.find? p l).map f := by
  induction l with
  | nil => simp
  | cons a l ih =>
    by_cases hp : p a
    · simp [List.find?, h a, hp]
    · simp only [List.map_cons, List.find?, h a]
      rw [Bool.not_eq_true] at hp
      simp [hp, ih]

lemma filter_idem (p : SymptomLog → Bool) (l : List SymptomLog) :
    (l.filter p).filter p = l.filter p := by
  induction l with
  | nil => rfl
  | cons a l ih =>
    by_cases h : p a
    · simp [List.filter_cons, h, ih]
    · rw [Bool.not_eq_true] at h
      simp [List.filter_cons, h, ih]

lemma mem_history_user {uid limit : Nat} {db : DB} {r : SymptomLog}
    (h : r ∈ (historyQueryOp uid limit db).1) : r.user_id = uid := by
  have h2 : r ∈ ownedNewestFirst uid db := List.mem_of_mem_take h
  have h3 : r ∈ db.filter (fun q => q.user_id == uid) :=
    ((List.perm_insertionSort createdDesc _).mem_iff).mp h2
  exact eq_of_beq (List.mem_filter.mp h3).2

lemma updateResolutionOp_invalid {s : String} (uid logId now : Nat) (db : DB)
    (hs : resolutionCheck s = false) :
    updateResolutionOp uid logId s now db = (Except.error ApiError.ValidationError, db) := by
  unfold updateResolutionOp
  simp [hs]

lemma updateResolutionOp_none {s : String} {uid logId : Nat} {db : DB} (now : Nat)
    (hs : resolutionCheck s = true) (hfind : db.find? (isTarget logId uid) = none) :
    updateResolutionOp uid logId s now db = (Except.error ApiError.NotFoundError, db) := by
  unfold updateResolutionOp
  simp [hs, hfind]

lemma updateResolutionOp_ok {s : String} {uid logId : Nat} {db : DB} {r0 : SymptomLog} (now : Nat)
    (hs : resolutionCheck s = true) (hfind : db.find? (isTarget logId uid) = some r0) :
    updateResolutionOp uid logId s now db =
      (Except.ok (applyResolution s now r0),
       db.map (fun q => if isTarget logId uid q then applyResolution s now q else q)) := by
  unfold updateResolutionOp
  simp [hs, hfind]

lemma updateResolutionOp_state (uid logId : Nat) (s : String) (now : Nat) (db : DB) :
    (updateResolutionOp uid logId s now db).2 = db
    ∨ (resolutionCheck s = true
        ∧ (updateResolutionOp uid logId s now db).2 =
          db.map (fun q => if isTarget logId uid q then applyResolution s now q else q)) := by
  by_cases hs : resolutionCheck s = true
  · cases hfind : db.find? (isTarget logId uid) with
    | none => left; rw [updateResolutionOp_none now hs hfind]
    | some r0 => right; exact ⟨hs, by rw [updateResolutionOp_ok now hs hfind]⟩
  · left
    rw [Bool.not_eq_true] at hs
    rw [updateResolutionOp_invalid uid logId now db hs]

/-- A row with an out-of-range confidence (5.00, stored as 500 hundredths)
that every schema constraint nevertheless accepts. -/
def overConfidentLog : SymptomLog :=
  { id := 9
    user_id := 7
    symptoms := "dizzy"
    urgency_level := "Telehealth"
    explanation := "check in with a provider"
    confidence := some 500
    esi_classification := none
    resolution_status := "Unknown"
    created_at := 1
    updated_at := 1 }

/-- C2: on creation and after every resolution update, every stored row keeps
`urgency_level` inside the fixed five-value urgency set and
`resolution_status` inside the fixed five-value status set (the table CHECK
constraint and `chk_resolution_status`), and a successful assessment call
returns a record whose urgency level is drawn from the five-value set. -/
theorem C2_enum_invariants
    (uid logId freshId now : Nat) (r rec : SymptomLog) (s symptoms : String)
    (classify : String → Option ClassifierOutput) (db db2 : DB) :
    (insertLog uid r db = Except.ok db2 → dbInv db → dbInv db2)
    ∧ (dbInv db → dbInv (updateResolutionOp uid logId s now db).2)
    ∧ ((assessHandler uid symptoms classify freshId now db).1 = Except.ok rec →
        urgencyCheck rec.urgency_level = true ∧ resolutionCheck rec.resolution_status = true) := by
  refine ⟨?_, ?_, ?_⟩
  · intro h hinv
    obtain ⟨-, hu, hr, -, rfl⟩ := insertLog_ok h
    intro x hx
    rcases List.mem_append.mp hx with hx | hx
    · exact hinv x hx
    · rcases List.mem_singleton.mp hx with rfl
      exact ⟨hu, hr⟩
  · intro hinv
    rcases updateResolutionOp_state uid logId s now db with h | ⟨hs, h⟩
    · rw [h]; exact hinv
    · rw [h]
      intro x hx
      rcases List.mem_map.mp hx with ⟨q, hq, rfl⟩
      by_cases ht : isTarget logId uid q = true
      · rw [if_pos ht]
        exact ⟨(hinv q hq).1, hs⟩
      · rw [if_neg ht]
        exact hinv q hq
  · intro h
    unfold assessHandler at h
    split at h
    · exact absurd h (by simp)
    · split at h
      · exact absurd h (by simp)
      · split at h
        · exact absurd h (by simp)
        · rename_i hins
          simp only at h
          injection h with h2
          obtain ⟨-, hu, hr, -, -⟩ := insertLog_ok hins
          subst h2
          exact ⟨hu, hr⟩

/-- C3: a symptom input that is empty or whitespace-only is rejected with a
validation error and the stored state is unchanged: the frontend
`handleSubmit` returns before calling the API, and the assess handler itself
rejects such input before any external call. -/
theorem C3_empty_input_rejected (symptoms : String) (uid freshId now : Nat)
    (classify : String → Option ClassifierOutput) (db : DB)
    (h : (jsTrim symptoms).isEmpty = true) :
    handleSubmit symptoms uid classify freshId now db = (SubmitOutcome.rejectedEmpty, db)
    ∧ assessHandler uid symptoms classify freshId now db
        = (Except.error ApiError.ValidationError, db) := by
  constructor
  · unfold handleSubmit
    simp [h]
  · unfold assessHandler
    simp [h]

/-- C4: the claim fails on the schema.  `confidence DECIMAL(3,2)` carries no
CHECK constraint (unlike `urgency_level` and `resolution_status`), so the
storage layer accepts and persists a row whose confidence is 5.00 — outside
the `[0,1]` range that the column's own COMMENT documents. -/
theorem C4_confidence_not_enforced :
    insertLog 7 overConfidentLog [] = Except.ok [overConfidentLog]
    ∧ overConfidentLog.confidence = some 500
    ∧ ¬((500 : Int) ≤ 100) := by decide

/-- C6: the history query returns only the caller's rows, at most `limit` of
them, ordered newest-first by creation timestamp, mutates nothing, and the SQL
function `get_user_recent_symptoms` is its column projection. -/
theorem C6_history_query (uid limit : Nat) (db : DB) :
    (historyQueryOp uid limit db).2 = db
    ∧ (∀ r ∈ (historyQueryOp uid limit db).1, r.user_id = uid)
    ∧ (historyQueryOp uid limit db).1.length ≤ limit
    ∧ List.Sorted createdDesc (historyQueryOp uid limit db).1
    ∧ get_user_recent_symptoms uid limit db
        = ((historyQueryOp uid limit db).1).map (fun r => (r.symptoms, r.created_at)) := by
  refine ⟨rfl, ?_, ?_, ?_, rfl⟩
  · intro r hr
    exact mem_history_user hr
  · exact List.length_take_le limit _
  · exact (List.sorted_insertionSort createdDesc _).sublist (List.take_sublist limit _)

/-- C8: a resolution update whose target id does not belong to the caller
fails with a not-found error and mutates nothing; an unrecognised status value
fails with a validation error and mutates nothing. -/
theorem C8_update_rejections (uid logId : Nat) (s : String) (now : Nat) (db : DB) :
    ((∀ r ∈ db, isTarget logId uid r = false) → resolutionCheck s = true →
        updateResolutionOp uid logId s now db = (Except.error ApiError.NotFoundError, db))
    ∧ (resolutionCheck s = false →
        updateResolutionOp uid logId s now db = (Except.error ApiError.ValidationError, db)) := by
  constructor
  · intro hall hs
    have hfind : db.find? (isTarget logId uid) = none := by
      rw [List.find?_eq_none]
      intro x hx
      rw [hall x hx]
      simp
    exact updateResolutionOp_none now hs hfind
  · intro hs
    exact updateResolutionOp_invalid uid logId now db hs

/-- C9: a response carrying HTTP status 401 makes the client clear both the
stored token and the stored user and redirect to the login page. -/
theorem C9_unauthorized_clears_session (status : Option Nat) (sess : ClientSession)
    (h : status = some 401) :
    (responseInterceptor status sess).token = none
    ∧ (responseInterceptor status sess).user = none
    ∧ (responseInterceptor status sess).location = "/login" := by
  subst h
  simp [responseInterceptor]

/-- C10: the rendering lookups are total: any urgency level outside the
five-value set maps to the fixed default style, any unrecognised resolution
status maps to the `Unknown` configuration, and a missing resolution status
maps to the `Unknown` configuration via the call-site default. -/
theorem C10_render_lookup_total (u s0 : String)
    (hu : urgencyCheck u = false) (hs : resolutionCheck s0 = false) :
    getUrgencyColor u = "bg-gray-50 text-gray-700 border-gray-200"
    ∧ getResolutionStatus s0 = unknownConfig
    ∧ resolutionConfigOf none = unknownConfig := by
  have n1 : ¬(u = "Emergency") := fun h => by
    rw [h] at hu; exact (by decide : urgencyCheck "Emergency" ≠ false) hu
  have n2 : ¬(u = "Urgent") := fun h => by
    rw [h] at hu; exact (by decide : urgencyCheck "Urgent" ≠ false) hu
  have n3 : ¬(u = "Primary Care") := fun h => by
    rw [h] at hu; exact (by decide : urgencyCheck "Primary Care" ≠ false) hu
  have n4 : ¬(u = "Telehealth") := fun h => by
    rw [h] at hu; exact (by decide : urgencyCheck "Telehealth" ≠ false) hu
  have n5 : ¬(u = "Self-Care") := fun h => by
    rw [h] at hu; exact (by decide : urgencyCheck "Self-Care" ≠ false) hu
  have m1 : ¬(s0 = "Resolved") := fun h => by
    rw [h] at hs; exact (by decide : resolutionCheck "Resolved" ≠ false) hs
  have m2 : ¬(s0 = "Improved") := fun h => by
    rw [h] at hs; exact (by decide : resolutionCheck "Improved" ≠ false) hs
  have m3 : ¬(s0 = "Ongoing") := fun h => by
    rw [h] at hs; exact (by decide : resolutionCheck "Ongoing" ≠ false) hs
  have m4 : ¬(s0 = "Worsened") := fun h => by
    rw [h] at hs; exact (by decide : resolutionCheck "Worsened" ≠ false) hs
  have m5 : ¬(s0 = "Unknown") := fun h => by
    rw [h] at hs; exact (by decide : resolutionCheck "Unknown" ≠ false) hs
  refine ⟨?_, ?_, by decide⟩
  · simp [getUrgencyColor, n1, n2, n3, n4, n5]
  · simp [getResolutionStatus, m1, m2, m3, m4, m5]

lemma updateMap_twice (uid logId : Nat) (s : String) (t1 t2 : Nat) (db : DB) :
    (db.map (fun q => if isTarget logId uid q then applyResolution s t1 q else q)).map
        (fun q => if isTarget logId uid q then applyResolution s t2 q else q)
      = db.map (fun q => if isTarget logId uid q then applyResolution s t2 q else q) := by
  induction db with
  | nil => rfl
  | cons a l ih =>
    simp only [List.map_cons, ih]
    congr 1
    by_cases h : isTarget logId uid a = true
    · rw [if_pos h, if_pos ((isTarget_applyResolution logId uid s t1 a).trans h), if_pos h]
      exact applyResolution_twice s t1 t2 a
    · rw [if_neg h]

lemma updateMap_erase (uid logId : Nat) (s : String) (t1 t2 : Nat) (db : DB) :
    (db.map (fun q => if isTarget logId uid q then applyResolution s t2 q else q)).map
        eraseUpdatedAt
      = (db.map (fun q => if isTarget logId uid q then applyResolution s t1 q else q)).map
          eraseUpdatedAt := by
  induction db with
  | nil => rfl
  | cons a l ih =>
    simp only [List.map_cons, ih]
    congr 1
    by_cases h : isTarget logId uid a = true
    · rw [if_pos h, if_pos h]
      rfl
    · rw [if_neg h, if_neg h]

/-- C5: applying the same valid resolution status twice to an owned record
succeeds and leaves the table in the very state one (later) application
produces: the two states agree on every field once `updated_at` is erased, and
the touched rows carry `updated_at = t1` after the first application and
`updated_at = t2 > t1` after the second. -/
theorem C5_resolution_update_idempotent (uid logId t1 t2 : Nat) (s : String) (db : DB)
    (hs : resolutionCheck s = true)
    (hex : (db.find? (isTarget logId uid)).isSome = true)
    (ht : t1 < t2) :
    (∃ q, (updateResolutionOp uid logId s t2 ((updateResolutionOp uid logId s t1 db).2)).1
        = Except.ok q)
    ∧ (updateResolutionOp uid logId s t2 ((updateResolutionOp uid logId s t1 db).2)).2
        = (updateResolutionOp uid logId s t2 db).2
    ∧ ((updateResolutionOp uid logId s t2 ((updateResolutionOp uid logId s t1 db).2)).2).map
          eraseUpdatedAt
        = ((updateResolutionOp uid logId s t1 db).2).map eraseUpdatedAt
    ∧ (∀ q ∈ (updateResolutionOp uid logId s t1 db).2, isTarget logId uid q = true →
        q.updated_at = t1)
    ∧ (∀ q ∈ (updateResolutionOp uid logId s t2 ((updateResolutionOp uid logId s t1 db).2)).2,
        isTarget logId uid q = true → q.updated_at = t2 ∧ t1 < q.updated_at) := by
  cases hfind : db.find? (isTarget logId uid) with
  | none =>
    rw [hfind] at hex
    simp at hex
  | some r0 =>
    have hdb1 : (updateResolutionOp uid logId s t1 db).2
        = db.map (fun q => if isTarget logId uid q then applyResolution s t1 q else q) := by
      rw [updateResolutionOp_ok t1 hs hfind]
    have hpt : ∀ a, isTarget logId uid
        ((fun q => if isTarget logId uid q then applyResolution s t1 q else q) a)
        = isTarget logId uid a := by
      intro a
      by_cases h : isTarget logId uid a = true
      · simp only [if_pos h, isTarget_applyResolution]
      · simp only [if_neg h]
    have hfind1 : ((updateResolutionOp uid logId s t1 db).2).find? (isTarget logId uid)
        = some (applyResolution s t1 r0) := by
      rw [hdb1, find?_map_of_pred hpt, hfind]
      have hr0 : isTarget logId uid r0 = true := List.find?_some hfind
      simp only [Option.map]
      rw [if_pos hr0]
    have hdb2 : (updateResolutionOp uid logId s t2 ((updateResolutionOp uid logId s t1 db).2)).2
        = ((updateResolutionOp uid logId s t1 db).2).map
            (fun q => if isTarget logId uid q then applyResolution s t2 q else q) := by
      rw [updateResolutionOp_ok t2 hs hfind1]
    refine ⟨⟨applyResolution s t2 (applyResolution s t1 r0), ?_⟩, ?_, ?_, ?_, ?_⟩
    · rw [updateResolutionOp_ok t2 hs hfind1]
    · rw [hdb2, hdb1, updateMap_twice, updateResolutionOp_ok t2 hs hfind]
    · rw [hdb2, hdb1, updateMap_twice, updateMap_erase uid logId s t1 t2 db]
    · intro q hq htq
      rw [hdb1] at hq
      rcases List.mem_map.mp hq with ⟨a, ha, rfl⟩
      by_cases h : isTarget logId uid a = true
      · rw [if_pos h]
        rfl
      · rw [if_neg h] at htq ⊢
        exact absurd htq h
    · intro q hq htq
      rw [hdb2, hdb1, updateMap_twice] at hq
      rcases List.mem_map.mp hq with ⟨a, ha, rfl⟩
      by_cases h : isTarget logId uid a = true
      · rw [if_pos h]
        exact ⟨rfl, ht⟩
      · rw [if_neg h] at htq ⊢
        exact absurd htq h

/-- C1: requests made with identity A never return or mutate a row owned by a
distinct identity B: the history read yields only rows of A and mutates
nothing; the statistics read is computed from the rows of A alone (rows of any
other user are invisible to it) and mutates nothing; a resolution update by A
leaves every row of B untouched; and when every row carrying the requested id
belongs to B, the update fails closed with a not-found error, exactly as if
the record were absent. -/
theorem C1_ownership_isolation (A B logId limit : Nat) (s : String) (now : Nat) (db : DB)
    (hAB : A ≠ B) :
    (∀ r ∈ (historyQueryOp A limit db).1, r.user_id = A ∧ r.user_id ≠ B)
    ∧ (historyQueryOp A limit db).2 = db
    ∧ (statsOp A db).1 = (statsOp A (db.filter (fun r => r.user_id == A))).1
    ∧ (statsOp A db).2 = db
    ∧ (∀ r ∈ db, r.user_id = B → r ∈ (updateResolutionOp A logId s now db).2)
    ∧ ((∀ r ∈ db, r.id = logId → r.user_id = B) → resolutionCheck s = true →
        updateResolutionOp A logId s now db = (Except.error ApiError.NotFoundError, db)) := by
  refine ⟨?_, rfl, ?_, rfl, ?_, ?_⟩
  · intro r hr
    have h := mem_history_user hr
    exact ⟨h, fun hb => hAB (h.symm.trans hb)⟩
  · show user_symptom_stats A db
      = user_symptom_stats A (db.filter (fun r => r.user_id == A))
    unfold user_symptom_stats
    rw [filter_idem]
  · intro r hr hB
    rcases updateResolutionOp_state A logId s now db with h | ⟨-, h⟩
    · rw [h]
      exact hr
    · rw [h]
      have huA : (r.user_id == A) = false :=
        beq_eq_false_iff_ne.mpr (fun hc => hAB (hc.symm.trans hB))
      have hne : ¬(isTarget logId A r = true) := by
        unfold isTarget
        rw [huA]
        simp
      exact List.mem_map.mpr ⟨r, hr, by rw [if_neg hne]⟩
  · intro hall hs
    have hfind : db.find? (isTarget logId A) = none := by
      rw [List.find?_eq_none]
      intro x hx hp
      unfold isTarget at hp
      rw [Bool.and_eq_true] at hp
      have hA : x.user_id = A := eq_of_beq hp.2
      exact hAB (hA.symm.trans (hall x hx (eq_of_beq hp.1)))
    exact updateResolutionOp_none now hs hfind

/-- Tuple of every `symptom_logs` column a resolution update must leave
untouched: everything except `resolution_status` and `updated_at`. -/
def frozenFields (q : SymptomLog) :
    Nat × Nat × String × String × String × Option Int × Option String × Nat :=
  (q.id, q.user_id, q.symptoms, q.urgency_level, q.explanation, q.confidence,
   q.esi_classification, q.created_at)

/-- C7: a resolution update preserves the table's length and, position by
position, every column other than `resolution_status` and `updated_at`; a row
the update does not target keeps its exact value; and `updated_at` never moves
through anything else: the history and statistics reads return the table
unchanged, and inserting a new record appends it, leaving every existing row
— its `updated_at` included — as it was. -/
theorem C7_update_frame (uid uidR uidS uidI logId limit now : Nat) (s : String)
    (r : SymptomLog) (db dbI : DB) :
    (updateResolutionOp uid logId s now db).2.length = db.length
    ∧ (∀ i : Nat, ((updateResolutionOp uid logId s now db).2[i]?).map frozenFields
        = (db[i]?).map frozenFields)
    ∧ (∀ i : Nat, ∀ q, db[i]? = some q → isTarget logId uid q = false →
        (updateResolutionOp uid logId s now db).2[i]? = some q)
    ∧ (historyQueryOp uidR limit db).2 = db
    ∧ (statsOp uidS db).2 = db
    ∧ (insertLog uidI r db = Except.ok dbI → dbI = db ++ [r]) := by
  rcases updateResolutionOp_state uid logId s now db with h | ⟨-, h⟩
  · refine ⟨by rw [h], ?_, ?_, rfl, rfl, ?_⟩
    · intro i
      rw [h]
    · intro i q hq hfalse
      rw [h]
      exact hq
    · intro hins
      exact (insertLog_ok hins).2.2.2.2
  · refine ⟨by rw [h, List.length_map], ?_, ?_, rfl, rfl, ?_⟩
    · intro i
      rw [h, List.getElem?_map]
      cases hq : db[i]? with
      | none => rfl
      | some q =>
        simp only [Option.map]
        by_cases ht : isTarget logId uid q = true
        · rw [if_pos ht]
          rfl
        · rw [if_neg ht]
    · intro i q hq hfalse
      rw [h, List.getElem?_map, hq]
      simp only [Option.map]
      rw [if_neg (by rw [hfalse]; simp)]
    · intro hins
      exact (insertLog_ok hins).2.2.2.2

/-- Classifier stub returning a fixed Self-Care verdict, used to instantiate
assessment hypotheses. -/
def sampleClassifier : String → Option ClassifierOutput :=
  fun _ => some { urgency_level := "Self-Care", explanation := "rest", confidence := some 85 }

/-- The record `sampleClassifier` output persists for user 7. -/
def sampleAssessed : SymptomLog :=
  mkAssessLog 7 3 5 "mild headache"
    { urgency_level := "Self-Care", explanation := "rest", confidence := some 85 }

/-- Session with a stored token and user, used to instantiate C9. -/
def sampleSession : ClientSession :=
  { token := some "tok", user := some "alice", location := "/dashboard" }

/-- Witness for C1 at identities A = 7 and B = 8 on the sample table: the
history read of user 7 yields only rows of user 7, and updating the row of
user 8 under identity 7 fails closed with a not-found error and no mutation. -/
theorem C1_ownership_isolation_witness :
    (sampleLog1.user_id = 7 ∧ sampleLog1.user_id ≠ 8)
    ∧ updateResolutionOp 7 2 "Resolved" 30 sampleDB
        = (Except.error ApiError.NotFoundError, sampleDB) :=
  ⟨(C1_ownership_isolation 7 8 2 5 "Resolved" 30 sampleDB (by decide)).1
      sampleLog1 (by decide),
   (C1_ownership_isolation 7 8 2 5 "Resolved" 30 sampleDB (by decide)).2.2.2.2.2
      (by decide) (by decide)⟩

/-- Witness for C2: a concrete insert, a concrete resolution update and a
concrete successful assessment all keep the enumerations inside their fixed
sets. -/
theorem C2_enum_invariants_witness :
    dbInv [sampleLog1]
    ∧ dbInv (updateResolutionOp 7 1 "Resolved" 30 [sampleLog1]).2
    ∧ (urgencyCheck sampleAssessed.urgency_level = true
        ∧ resolutionCheck sampleAssessed.resolution_status = true) :=
  ⟨(C2_enum_invariants 7 1 3 5 sampleLog1 sampleAssessed "Resolved" "mild headache"
      sampleClassifier [] [sampleLog1]).1 (by decide) (by decide),
   (C2_enum_invariants 7 1 3 30 sampleLog1 sampleAssessed "Resolved" "mild headache"
      sampleClassifier [sampleLog1] [sampleLog1]).2.1 (by decide),
   (C2_enum_invariants 7 1 3 5 sampleLog1 sampleAssessed "Resolved" "mild headache"
      sampleClassifier [] [sampleLog1]).2.2 (by decide)⟩

/-- Witness for C3 at the whitespace-only input of three spaces. -/
theorem C3_empty_input_rejected_witness :
    handleSubmit "   " 7 sampleClassifier 3 5 sampleDB
        = (SubmitOutcome.rejectedEmpty, sampleDB)
    ∧ assessHandler 7 "   " sampleClassifier 3 5 sampleDB
        = (Except.error ApiError.ValidationError, sampleDB) :=
  C3_empty_input_rejected "   " 7 3 5 sampleClassifier sampleDB (by decide)

/-- Witness for C5: updating row 1 of the sample table to `Resolved` twice (at
instants 30 then 31) produces the same table as updating it once at 31. -/
theorem C5_resolution_update_idempotent_witness :
    (updateResolutionOp 7 1 "Resolved" 31 ((updateResolutionOp 7 1 "Resolved" 30 sampleDB).2)).2
      = (updateResolutionOp 7 1 "Resolved" 31 sampleDB).2 :=
  (C5_resolution_update_idempotent 7 1 30 31 "Resolved" sampleDB
      (by decide) (by decide) (by decide)).2.1

/-- Witness for C6 on the sample table with limit 2. -/
theorem C6_history_query_witness :
    (historyQueryOp 7 2 sampleDB).2 = sampleDB ∧ sampleLog1.user_id = 7 :=
  ⟨(C6_history_query 7 2 sampleDB).1,
   (C6_history_query 7 2 sampleDB).2.1 sampleLog1 (by decide)⟩

/-- Witness for C7: updating row 1 of the sample table leaves the untargeted
row 2 exactly in place, and a concrete insert appends the new row. -/
theorem C7_update_frame_witness :
    (updateResolutionOp 7 1 "Resolved" 30 sampleDB).2[1]? = some sampleLog2
    ∧ sampleDB ++ [sampleLog3] = sampleDB ++ [sampleLog3] :=
  ⟨(C7_update_frame 7 7 7 7 1 2 30 "Resolved" sampleLog3 sampleDB
        (sampleDB ++ [sampleLog3])).2.2.1 1 sampleLog2 (by decide) (by decide),
   (C7_update_frame 7 7 7 7 1 2 30 "Resolved" sampleLog3 sampleDB
        (sampleDB ++ [sampleLog3])).2.2.2.2.2 (by decide)⟩

/-- Witness for C8: the foreign row 2 yields a not-found error, the
unrecognised status value `Bogus` yields a validation error, neither mutates
the sample table. -/
theorem C8_update_rejections_witness :
    updateResolutionOp 7 2 "Resolved" 30 sampleDB
        = (Except.error ApiError.NotFoundError, sampleDB)
    ∧ updateResolutionOp 7 1 "Bogus" 30 sampleDB
        = (Except.error ApiError.ValidationError, sampleDB) :=
  ⟨(C8_update_rejections 7 2 "Resolved" 30 sampleDB).1 (by decide) (by decide),
   (C8_update_rejections 7 1 "Bogus" 30 sampleDB).2 (by decide)⟩

/-- Witness for C9 at status 401 on a populated session. -/
theorem C9_unauthorized_clears_session_witness :
    (responseInterceptor (some 401) sampleSession).token = none
    ∧ (responseInterceptor (some 401) sampleSession).user = none
    ∧ (responseInterceptor (some 401) sampleSession).location = "/login" :=
  C9_unauthorized_clears_session (some 401) sampleSession rfl

/-- Witness for C10 at the out-of-set values `Mild` and `Fixed`. -/
theorem C10_render_lookup_total_witness :
    getUrgencyColor "Mild" = "bg-gray-50 text-gray-700 border-gray-200"
    ∧ getResolutionStatus "Fixed" = unknownConfig
    ∧ resolutionConfigOf none = unknownConfig :=
  C10_render_lookup_total "Mild" "Fixed" (by decide) (by decide)
